import Mathlib

/-!
Verification of the 2d-ball-bounce-sim physics core against its
natural-language specification.  The C++ sources are shallowly embedded:
`float` arithmetic is modelled by exact real arithmetic, out-parameters by
returned values, and in-place mutation by state-passing functions.
Definitions come first, followed by the lemmas and the claim theorems.
-/

noncomputable section

open Classical

namespace BallSim

/-- Modelled from the spec: the 2D vector math primitive (`Vector2D.h` is not
part of the provided sources).  Component-wise arithmetic, dot product,
Euclidean magnitude and distance, as consumed by the physics code. -/
@[ext]
structure Vector2D where
  x : ℝ
  y : ℝ

namespace Vector2D

def add (a b : Vector2D) : Vector2D := ⟨a.x + b.x, a.y + b.y⟩

def sub (a b : Vector2D) : Vector2D := ⟨a.x - b.x, a.y - b.y⟩

/-- Scalar multiple `v * s` (C++ `operator*`). -/
def scale (v : Vector2D) (s : ℝ) : Vector2D := ⟨v.x * s, v.y * s⟩

/-- Scalar division `v / s` (C++ `operator/`). -/
def divScalar (v : Vector2D) (s : ℝ) : Vector2D := ⟨v.x / s, v.y / s⟩

def dot (a b : Vector2D) : ℝ := a.x * b.x + a.y * b.y

def magnitudeSquared (v : Vector2D) : ℝ := v.x * v.x + v.y * v.y

def magnitude (v : Vector2D) : ℝ := Real.sqrt v.magnitudeSquared

/-- Euclidean distance between two points, `a.distance(b)` in C++. -/
def distance (a b : Vector2D) : ℝ := (sub b a).magnitude

def normalized (v : Vector2D) : Vector2D := v.divScalar v.magnitude

end Vector2D

namespace MathUtils

/-- Clamp of `MathUtils::clamp` (the math header is not among the provided
sources; this is the standard clamp used by the segment projection). -/
def clamp (v lo hi : ℝ) : ℝ := if v < lo then lo else if v > hi then hi else v

/-- Modelled from the spec: `MathUtils::degToRad` (body missing from the
sources); the usual degrees-to-radians conversion. -/
def degToRad (d : ℝ) : ℝ := d * Real.pi / 180

/-- Modelled from the spec: `MathUtils::normalizeAngle` (body missing from
the sources); the spec states angles are wrapped into `[0, 2*pi)`. -/
def normalizeAngle (a : ℝ) : ℝ :=
  a - 2 * Real.pi * (Int.floor (a / (2 * Real.pi)) : ℝ)

end MathUtils

/-- Modelled from the spec: the circular rigid body (`Ball.h` is not part of
the provided sources).  The rendering-only color tag is omitted; mass is
derived from the radius and not read by the code verified here. -/
structure Ball where
  position : Vector2D
  velocity : Vector2D
  radius : ℝ

/-- Contact record produced by the collision detector (`CollisionInfo` in
`CollisionDetector.h`): collision flag, contact normal, penetration depth. -/
structure CollisionInfo where
  hasCollision : Bool
  normal : Vector2D
  penetration : ℝ

/-- Default-constructed `CollisionInfo`: no collision. -/
def CollisionInfo.default : CollisionInfo := ⟨false, ⟨0, 0⟩, 0⟩

namespace CollisionDetector

/-- Baseline `CollisionDetector::checkBallCollision`
(`src/physics/CollisionDetector.cpp` lines 6-24). -/
def checkBallCollision (ballA ballB : Ball) : CollisionInfo :=
  let delta := Vector2D.sub ballB.position ballA.position
  let distanceSquared := delta.magnitudeSquared
  let combinedRadius := ballA.radius + ballB.radius
  let combinedRadiusSquared := combinedRadius * combinedRadius
  if distanceSquared < combinedRadiusSquared ∧ distanceSquared > 0.0001 then
    let distance := Real.sqrt distanceSquared
    ⟨true, delta.divScalar distance, combinedRadius - distance⟩
  else
    CollisionInfo.default

end CollisionDetector

namespace CollisionDetectorP1

/-- Revision part_001 `checkBallCollision` (lines 5-23; parameter names `a`,
`b`, the body is the same computation as the baseline). -/
def checkBallCollision (a b : Ball) : CollisionInfo :=
  let delta := Vector2D.sub b.position a.position
  let distanceSquared := delta.magnitudeSquared
  let combinedRadius := a.radius + b.radius
  let combinedRadiusSquared := combinedRadius * combinedRadius
  if distanceSquared < combinedRadiusSquared ∧ distanceSquared > 0.0001 then
    let distance := Real.sqrt distanceSquared
    ⟨true, delta.divScalar distance, combinedRadius - distance⟩
  else
    CollisionInfo.default

end CollisionDetectorP1

namespace CollisionDetectorP2

/-- Revision part_002 `checkBallCollision` (lines 6-24). -/
def checkBallCollision (ballA ballB : Ball) : CollisionInfo :=
  let delta := Vector2D.sub ballB.position ballA.position
  let distanceSquared := delta.magnitudeSquared
  let combinedRadius := ballA.radius + ballB.radius
  let combinedRadiusSquared := combinedRadius * combinedRadius
  if distanceSquared < combinedRadiusSquared ∧ distanceSquared > 0.0001 then
    let distance := Real.sqrt distanceSquared
    ⟨true, delta.divScalar distance, combinedRadius - distance⟩
  else
    CollisionInfo.default

end CollisionDetectorP2

/-- World-space edge of the square container (`Edge` in `Container.h`,
revision part_003): segment endpoints (the C++ field named `end` is rendered
`endPt`), local side index, gap marker. -/
structure Edge where
  start : Vector2D
  endPt : Vector2D
  sideIndex : Fin 4
  hasGap : Bool

/-- The rotating square container (`Container` of revision part_003).  The
C++ gap side is an `int` documented and used as an index 0..3 (0=right,
1=top, 2=left, 3=bottom in local space), so it is carried as `Fin 4`;
`rotationSpeed` is in degrees per second. -/
structure Container where
  center : Vector2D
  sideLength : ℝ
  gapSizeFraction : ℝ
  gapSide : Fin 4
  rotationSpeed : ℝ
  currentAngleRad : ℝ

namespace Container

/-- Rotation update `Container::update` (part_003 lines 63-70): advance the
angle by `rotationSpeed * deltaTime` degrees, converted to radians, and
normalize. -/
def update (c : Container) (deltaTime : ℝ) : Container :=
  let deltaAngleRad := MathUtils.degToRad (c.rotationSpeed * deltaTime)
  { c with currentAngleRad := MathUtils.normalizeAngle (c.currentAngleRad + deltaAngleRad) }

/-- Local-space corners of the square (part_003 lines 113-118):
0=bottom-right, 1=top-right, 2=top-left, 3=bottom-left. -/
def localCorner (c : Container) : Fin 4 → Vector2D
  | 0 => ⟨c.sideLength / 2, -(c.sideLength / 2)⟩
  | 1 => ⟨c.sideLength / 2, c.sideLength / 2⟩
  | 2 => ⟨-(c.sideLength / 2), c.sideLength / 2⟩
  | 3 => ⟨-(c.sideLength / 2), -(c.sideLength / 2)⟩

/-- World corners (`Container::getWorldCorners`, part_003 lines 108-132):
rotate each local corner by the current angle and translate to the
center. -/
def getWorldCorners (c : Container) (i : Fin 4) : Vector2D :=
  let lc := c.localCorner i
  ⟨c.center.x + (lc.x * Real.cos c.currentAngleRad - lc.y * Real.sin c.currentAngleRad),
   c.center.y + (lc.x * Real.sin c.currentAngleRad + lc.y * Real.cos c.currentAngleRad)⟩

/-- World edges (`Container::getWorldEdges`, part_003 lines 134-152): edge
`i` connects corner `i` to corner `(i+1) mod 4`; only the gap side is
marked. -/
def getWorldEdges (c : Container) (i : Fin 4) : Edge :=
  ⟨c.getWorldCorners i, c.getWorldCorners (i + 1), i, i == c.gapSide⟩

/-- The four container edges in loop order, as traversed by
`checkContainerCollision`. -/
def edgesList (c : Container) : List Edge :=
  [c.getWorldEdges 0, c.getWorldEdges 1, c.getWorldEdges 2, c.getWorldEdges 3]

/-- Gap endpoints (`Container::getGapBoundaries`, part_003 lines 154-169),
centered on the gap edge; the two out-parameters are returned as a pair,
gap start first. -/
def getGapBoundaries (c : Container) : Vector2D × Vector2D :=
  let gapEdge := c.getWorldEdges c.gapSide
  let edgeVector := Vector2D.sub gapEdge.endPt gapEdge.start
  let edgeLength := edgeVector.magnitude
  let gapLength := edgeLength * c.gapSizeFraction
  let gapStartDist := (edgeLength - gapLength) / 2
  let gapEndDist := gapStartDist + gapLength
  let edgeDir := edgeVector.normalized
  (Vector2D.add gapEdge.start (edgeDir.scale gapStartDist),
   Vector2D.add gapEdge.start (edgeDir.scale gapEndDist))

end Container

/-- Exact value of `FLT_MAX`, the largest finite single-precision float: the
initial minimum-penetration sentinel of the baseline edge loop. -/
def fltMax : ℝ := 2 ^ 128 - 2 ^ 104

namespace CollisionDetector

/-- Closest point on the finite edge segment to the ball center (baseline
`checkContainerCollision`, lines 41-53): project onto the edge direction and
clamp to the segment. -/
def closestPointOnEdge (ball : Ball) (e : Edge) : Vector2D :=
  let edgeVector := Vector2D.sub e.endPt e.start
  let edgeLength := edgeVector.magnitude
  let edgeDir := edgeVector.divScalar edgeLength
  let toBall := Vector2D.sub ball.position e.start
  let projection := MathUtils.clamp (toBall.dot edgeDir) 0 edgeLength
  Vector2D.add e.start (edgeDir.scale projection)

/-- Distance from the ball center to the closest point of the edge (baseline
lines 68-70). -/
def distToEdge (ball : Ball) (e : Edge) : ℝ :=
  (Vector2D.sub ball.position (closestPointOnEdge ball e)).magnitude

/-- The outward edge perpendicular (baseline lines 72-80): rotate the edge
direction by 90 degrees and flip it if it points toward the container
center. -/
def outwardPerp (cont : Container) (e : Edge) : Vector2D :=
  let edgeVector := Vector2D.sub e.endPt e.start
  let edgeDir := edgeVector.divScalar edgeVector.magnitude
  let edgePerp : Vector2D := ⟨-edgeDir.y, edgeDir.x⟩
  let edgeCenter := (Vector2D.add e.start e.endPt).scale 0.5
  let centerToEdge := Vector2D.sub edgeCenter cont.center
  if edgePerp.dot centerToEdge < 0 then edgePerp.scale (-1) else edgePerp

/-- Whether the ball center lies on the interior side of the edge (baseline
lines 82-91); a center within 0.0001 of the edge counts as inside. -/
def ballIsInsideEdge (ball : Ball) (cont : Container) (e : Edge) : Prop :=
  if distToEdge ball e > 0.0001 then
    ((Vector2D.sub ball.position (closestPointOnEdge ball e)).divScalar
        (distToEdge ball e)).dot (outwardPerp cont e) < 0
  else True

/-- Whether the closest point falls inside the gap span (baseline lines
55-66): the two distances to the gap endpoints sum to at most the gap length
plus the 0.5 tolerance. -/
def closestPointInGap (ball : Ball) (gapStart gapEnd : Vector2D) (e : Edge) : Prop :=
  (closestPointOnEdge ball e).distance gapStart
      + (closestPointOnEdge ball e).distance gapEnd
    ≤ gapStart.distance gapEnd + 0.5

/-- One iteration of the baseline `checkContainerCollision` edge loop (lines
39-137): `none` when the edge is degenerate, gap-transparent or not hit;
otherwise the outward contact normal and the penetration.  An inside overlap
penetrates by `radius - distance`; a center already outside the edge always
yields a contact with penetration `radius + distance` (the pull-back
tunneling policy of this revision). -/
def edgeContact (ball : Ball) (cont : Container) (gapStart gapEnd : Vector2D)
    (e : Edge) : Option (Vector2D × ℝ) :=
  if (Vector2D.sub e.endPt e.start).magnitude < 0.0001 then none
  else if e.hasGap = true ∧ closestPointInGap ball gapStart gapEnd e then none
  else
    let toBallFromEdge := Vector2D.sub ball.position (closestPointOnEdge ball e)
    let dist := distToEdge ball e
    let inside := ballIsInsideEdge ball cont e
    if (inside ∧ dist < ball.radius) ∨ ¬ inside then
      let penetration := if inside then ball.radius - dist else ball.radius + dist
      let normal :=
        if inside then
          (if dist > 0.0001 then (toBallFromEdge.divScalar dist).scale (-1)
           else outwardPerp cont e)
        else
          (if dist > 0.0001 then toBallFromEdge.divScalar dist
           else outwardPerp cont e)
      some (normal, penetration)
    else none

/-- Accumulator update of the baseline loop (lines 128-134): a new contact is
stored only when its penetration is below the recorded minimum
(`penetration < minPenetration`, the minimum starting at `FLT_MAX`). -/
def containerStep (ball : Ball) (cont : Container) (gapStart gapEnd : Vector2D)
    (acc : CollisionInfo × ℝ) (e : Edge) : CollisionInfo × ℝ :=
  match edgeContact ball cont gapStart gapEnd e with
  | none => acc
  | some (n, p) => if p < acc.2 then (⟨true, n, p⟩, p) else acc

/-- Baseline `CollisionDetector::checkContainerCollision` (lines 26-140):
fold the per-edge loop body over the four world edges. -/
def checkContainerCollision (ball : Ball) (cont : Container) : CollisionInfo :=
  (cont.edgesList.foldl
    (containerStep ball cont cont.getGapBoundaries.1 cont.getGapBoundaries.2)
    (CollisionInfo.default, fltMax)).1

end CollisionDetector

namespace CollisionDetectorP2

/-- One iteration of the revision part_002 edge loop (lines 39-146): identical
segment, gap and distance computations, but a contact exists only when the
ball overlaps the edge (`distance < radius`, two-sided), and the normal
points from the ball toward the wall. -/
def edgeContact (ball : Ball) (cont : Container) (gapStart gapEnd : Vector2D)
    (e : Edge) : Option (Vector2D × ℝ) :=
  if (Vector2D.sub e.endPt e.start).magnitude < 0.0001 then none
  else if e.hasGap = true ∧ CollisionDetector.closestPointInGap ball gapStart gapEnd e then
    none
  else
    let toBallFromEdge :=
      Vector2D.sub ball.position (CollisionDetector.closestPointOnEdge ball e)
    let dist := CollisionDetector.distToEdge ball e
    if dist < ball.radius then
      let normal :=
        if dist > 0.0001 then (toBallFromEdge.divScalar dist).scale (-1)
        else
          (if CollisionDetector.ballIsInsideEdge ball cont e then
            CollisionDetector.outwardPerp cont e
           else (CollisionDetector.outwardPerp cont e).scale (-1))
      some (normal, ball.radius - dist)
    else none

/-- Revision part_002 `checkContainerCollision` (lines 26-150): each valid
edge contact overwrites `bestCollision` unconditionally, so the last
examined colliding edge wins. -/
def checkContainerCollision (ball : Ball) (cont : Container) : CollisionInfo :=
  cont.edgesList.foldl
    (fun acc e =>
      match edgeContact ball cont cont.getGapBoundaries.1 cont.getGapBoundaries.2 e with
      | none => acc
      | some (n, p) => ⟨true, n, p⟩)
    CollisionInfo.default

end CollisionDetectorP2

/-- Modelled from the spec: `Ball::isOffScreen` (body missing from the
sources); the lifecycle manager removes bodies outside
`[-k*W, k*W] x [-k*H, k*H]` for a configured extent multiplier `k`. -/
def Ball.isOffScreen (k screenWidth screenHeight : ℝ) (b : Ball) : Prop :=
  b.position.x < -(k * screenWidth) ∨ k * screenWidth < b.position.x ∨
  b.position.y < -(k * screenHeight) ∨ k * screenHeight < b.position.y

/-- The mutable state of `BallManager` (`BallManager.h`): ball list, spawn
point, radius for newly spawned balls, pending respawn counter. -/
structure BallManagerState where
  balls : List Ball
  spawnCenter : Vector2D
  ballRadius : ℝ
  pendingRespawnCount : ℤ

namespace BallManager

/-- The erase loop of `BallManager::update` (lines 26-34): drop every
off-screen ball, keeping order, and count the removals. -/
def removeLoop (isOff : Ball → Prop) : List Ball → List Ball × ℕ
  | [] => ([], 0)
  | b :: rest =>
      let r := removeLoop isOff rest
      if isOff b then (r.1, r.2 + 1) else (b :: r.1, r.2)

/-- Spawn-clearance test `BallManager::wouldCollideWithBalls` (lines 82-96):
the position is blocked when some existing ball is within twice the combined
radii. -/
def wouldCollideWithBalls (s : BallManagerState) (position : Vector2D) : Prop :=
  ∃ b ∈ s.balls, position.distance b.position < (s.ballRadius + b.radius) * 2

/-- Lifecycle update `BallManager::update` (lines 21-48).  The randomized
spawn (`createRandomBall`) is modelled by the oracle parameter `newBall`;
the off-screen test delegates to the spec-modelled `Ball.isOffScreen` with
extent multiplier `k`. -/
def update (k : ℝ) (newBall : Ball) (s : BallManagerState)
    (screenWidth screenHeight : ℝ) (respawnCount : ℤ) : BallManagerState :=
  let r := removeLoop (Ball.isOffScreen k screenWidth screenHeight) s.balls
  let pending :=
    if 0 < r.2 then s.pendingRespawnCount + (r.2 : ℤ) * respawnCount
    else s.pendingRespawnCount
  let s1 : BallManagerState := { s with balls := r.1, pendingRespawnCount := pending }
  if 0 < pending ∧ ¬ wouldCollideWithBalls s1 s.spawnCenter then
    { s1 with balls := r.1 ++ [newBall], pendingRespawnCount := pending - 1 }
  else s1

end BallManager

/-- What one `BallManager::update` call must do, for off-screen multiplier
`k`, spawn oracle `newBall`, state `s`, screen extent `w x h`, respawn count
`rc`: exactly the off-screen balls are removed (order kept), the pending
counter gains removals times `rc`, and at most one ball is spawned - exactly
one, decrementing the counter, precisely when the counter is positive and
the spawn point is clear of the remaining balls; the counter stays
nonnegative. -/
def BallManagerUpdateSpec (k : ℝ) (newBall : Ball) (s : BallManagerState)
    (w h : ℝ) (rc : ℤ) : Prop :=
  let off := Ball.isOffScreen k w h
  let kept := s.balls.filter fun b => decide (¬ off b)
  let removed := (s.balls.filter fun b => decide (off b)).length
  let pend := s.pendingRespawnCount + (removed : ℤ) * rc
  let s1 : BallManagerState := { s with balls := kept, pendingRespawnCount := pend }
  let res := BallManager.update k newBall s w h rc
  let spawnNow := 0 < pend ∧ ¬ BallManager.wouldCollideWithBalls s1 s.spawnCenter
  (spawnNow → res.balls = kept ++ [newBall] ∧ res.pendingRespawnCount = pend - 1) ∧
  (¬ spawnNow → res.balls = kept ∧ res.pendingRespawnCount = pend) ∧
  (∀ b ∈ kept, ¬ off b) ∧
  0 ≤ res.pendingRespawnCount

/-- The per-tick game state (`GameState.h`): ball manager and container; the
physics system holds only its gravity constant, which none of the claims
read, so it is not stored. -/
structure GameStateS where
  ballManager : BallManagerState
  container : Container

namespace GameState

/-- Rotation phase of the tick: `container.update(deltaTime)`. -/
def rotationPhase (deltaTime : ℝ) (s : GameStateS) : GameStateS :=
  { s with container := s.container.update deltaTime }

/-- Physics phase of the tick.  `PhysicsSystem::update` is not among the
provided sources, so it is an abstract parameter `phys` (modelled from the
spec: the physics step reads the container and rewrites the ball collection
in place). -/
def physicsPhase (phys : List Ball → Container → ℝ → ℝ → List Ball)
    (deltaTime restitution : ℝ) (s : GameStateS) : GameStateS :=
  { s with ballManager :=
      { s.ballManager with
          balls := phys s.ballManager.balls s.container deltaTime restitution } }

/-- Lifecycle phase of the tick: `ballManager.update(W, H, respawnCount)`,
with the same spawn oracle and extent multiplier as `BallManager.update`. -/
def lifecyclePhase (k : ℝ) (newBall : Ball) (windowWidth windowHeight : ℝ)
    (respawnCount : ℤ) (s : GameStateS) : GameStateS :=
  { s with ballManager :=
      BallManager.update k newBall s.ballManager windowWidth windowHeight respawnCount }

/-- Tick orchestration `GameState::update` (part_000 lines 24-37): advance
the container rotation, run the physics step on the rotated container, then
run the ball-manager lifecycle update. -/
def update (phys : List Ball → Container → ℝ → ℝ → List Ball)
    (k : ℝ) (newBall : Ball) (windowWidth windowHeight : ℝ)
    (s : GameStateS) (deltaTime restitution : ℝ) (respawnCount : ℤ) : GameStateS :=
  let container' := s.container.update deltaTime
  let balls' := phys s.ballManager.balls container' deltaTime restitution
  let mgr' := BallManager.update k newBall { s.ballManager with balls := balls' }
      windowWidth windowHeight respawnCount
  ⟨mgr', container'⟩

end GameState

/-! Concrete data used by witnesses and counterexamples. -/

/-- The container as constructed by `GameState` (part_000): center at the
window center (taken here as the origin), side 600, gap fraction 0.25 on
side 0, rotating at 36 degrees per second, starting at angle 0. -/
def contW : Container := ⟨⟨0, 0⟩, 600, 0.25, 0, 36, 0⟩

/-- The same geometry as `contW` but with zero rotation speed. -/
def contW0 : Container := ⟨⟨0, 0⟩, 600, 0.25, 0, 0, 0⟩

/-- A ball of radius 10 at the origin. -/
def ballA4 : Ball := ⟨⟨0, 0⟩, ⟨0, 0⟩, 10⟩

/-- A ball of radius 10 at (12, 0): overlaps `ballA4` (distance 12 < 20). -/
def ballB4 : Ball := ⟨⟨12, 0⟩, ⟨0, 0⟩, 10⟩

/-- Ball used for claim C1: radius 10 near the top-left corner of `contW`,
overlapping the top edge by 2 and the left edge by 5. -/
def ballC1 : Ball := ⟨⟨-295, 292⟩, ⟨0, 0⟩, 10⟩

/-- Ball used for claim C2: radius 10 with center 20 above the top edge of
`contW`, fully outside the container. -/
def ballC2 : Ball := ⟨⟨0, 320⟩, ⟨0, 0⟩, 10⟩

/-- Ball used for claim C3: radius 10 just inside the middle of the gap
edge of `contW`. -/
def ballC3 : Ball := ⟨⟨299, 0⟩, ⟨0, 0⟩, 10⟩

/-- A ball far off-screen, to be culled by the lifecycle update. -/
def ballFar : Ball := ⟨⟨10000, 0⟩, ⟨0, 0⟩, 20⟩

/-- A manager state holding only the far-away ball, with no pending
spawns. -/
def mgrW : BallManagerState := ⟨[ballFar], ⟨400, 300⟩, 20, 0⟩

/-- The ball returned by the spawn oracle in the claim C5 witness. -/
def ballNew : Ball := ⟨⟨400, 300⟩, ⟨50, 50⟩, 20⟩

/-! Lemmas about the embedded primitives. -/

namespace Vector2D

@[simp] lemma add_x (a b : Vector2D) : (add a b).x = a.x + b.x := rfl
@[simp] lemma add_y (a b : Vector2D) : (add a b).y = a.y + b.y := rfl
@[simp] lemma sub_x (a b : Vector2D) : (sub a b).x = a.x - b.x := rfl
@[simp] lemma sub_y (a b : Vector2D) : (sub a b).y = a.y - b.y := rfl
@[simp] lemma scale_x (v : Vector2D) (s : ℝ) : (scale v s).x = v.x * s := rfl
@[simp] lemma scale_y (v : Vector2D) (s : ℝ) : (scale v s).y = v.y * s := rfl
@[simp] lemma divScalar_x (v : Vector2D) (s : ℝ) : (divScalar v s).x = v.x / s := rfl
@[simp] lemma divScalar_y (v : Vector2D) (s : ℝ) : (divScalar v s).y = v.y / s := rfl

lemma magnitudeSquared_nonneg (v : Vector2D) : 0 ≤ v.magnitudeSquared := by
  have hx : 0 ≤ v.x * v.x := mul_self_nonneg _
  have hy : 0 ≤ v.y * v.y := mul_self_nonneg _
  simpa [magnitudeSquared] using add_nonneg hx hy

lemma magnitude_nonneg (v : Vector2D) : 0 ≤ v.magnitude := Real.sqrt_nonneg _

lemma sq_magnitude (v : Vector2D) : v.magnitude ^ 2 = v.magnitudeSquared :=
  Real.sq_sqrt v.magnitudeSquared_nonneg

/-- Evaluate a magnitude at concrete components once a nonnegative square
root is exhibited. -/
lemma magnitude_eval (a b c : ℝ) (hc : 0 ≤ c) (h : a * a + b * b = c * c) :
    magnitude ⟨a, b⟩ = c := by
  unfold magnitude magnitudeSquared
  simp only
  rw [h, show c * c = c ^ 2 by ring, Real.sqrt_sq hc]

lemma magnitude_scale (v : Vector2D) (s : ℝ) :
    (scale v s).magnitude = |s| * v.magnitude := by
  unfold magnitude magnitudeSquared scale
  simp only
  rw [show v.x * s * (v.x * s) + v.y * s * (v.y * s)
        = (s * s) * (v.x * v.x + v.y * v.y) by ring,
    Real.sqrt_mul (mul_self_nonneg s), Real.sqrt_mul_self_eq_abs]

lemma magnitude_divScalar (v : Vector2D) (s : ℝ) :
    (divScalar v s).magnitude = v.magnitude / |s| := by
  rcases eq_or_ne s 0 with hs | hs
  · simp [divScalar, hs, magnitude, magnitudeSquared]
  · unfold magnitude magnitudeSquared divScalar
    simp only
    rw [show v.x / s * (v.x / s) + v.y / s * (v.y / s)
          = (v.x * v.x + v.y * v.y) / (s * s) by field_simp,
      Real.sqrt_div' _ (mul_self_nonneg s), Real.sqrt_mul_self_eq_abs]

lemma magnitude_eq_zero_iff (v : Vector2D) : v.magnitude = 0 ↔ v = ⟨0, 0⟩ := by
  unfold magnitude
  rw [Real.sqrt_eq_zero v.magnitudeSquared_nonneg]
  constructor
  · intro h
    have hx : v.x = 0 ∧ v.y = 0 := by
      constructor
      · nlinarith [mul_self_nonneg v.x, mul_self_nonneg v.y,
          show v.magnitudeSquared = v.x * v.x + v.y * v.y from rfl]
      · nlinarith [mul_self_nonneg v.x, mul_self_nonneg v.y,
          show v.magnitudeSquared = v.x * v.x + v.y * v.y from rfl]
    ext <;> simp [hx.1, hx.2]
  · intro h
    simp [h, magnitudeSquared]

end Vector2D

namespace MathUtils

lemma normalizeAngle_eq_fract (a : ℝ) :
    normalizeAngle a = 2 * Real.pi * Int.fract (a / (2 * Real.pi)) := by
  have h2π : (2 * Real.pi) ≠ 0 := by positivity
  unfold normalizeAngle Int.fract
  rw [mul_sub, mul_div_cancel₀ a h2π]

lemma normalizeAngle_mem (a : ℝ) :
    0 ≤ normalizeAngle a ∧ normalizeAngle a < 2 * Real.pi := by
  rw [normalizeAngle_eq_fract]
  have h2π : 0 < 2 * Real.pi := by positivity
  constructor
  · exact mul_nonneg h2π.le (Int.fract_nonneg _)
  · calc 2 * Real.pi * Int.fract (a / (2 * Real.pi))
        < 2 * Real.pi * 1 := by
          exact mul_lt_mul_of_pos_left (Int.fract_lt_one _) h2π
      _ = 2 * Real.pi := mul_one _

end MathUtils

/-- Evaluate a real square root at a perfect square. -/
lemma sqrt_eval (a b : ℝ) (hb : 0 ≤ b) (h : a = b ^ 2) : Real.sqrt a = b := by
  rw [h]; exact Real.sqrt_sq hb

lemma sqrt360000 : Real.sqrt 360000 = 600 := sqrt_eval _ _ (by norm_num) (by norm_num)
lemma sqrt5625 : Real.sqrt 5625 = 75 := sqrt_eval _ _ (by norm_num) (by norm_num)
lemma sqrt22500 : Real.sqrt 22500 = 150 := sqrt_eval _ _ (by norm_num) (by norm_num)
lemma sqrt354025 : Real.sqrt 354025 = 595 := sqrt_eval _ _ (by norm_num) (by norm_num)
lemma sqrt134689 : Real.sqrt 134689 = 367 := sqrt_eval _ _ (by norm_num) (by norm_num)
lemma sqrt47089 : Real.sqrt 47089 = 217 := sqrt_eval _ _ (by norm_num) (by norm_num)
lemma sqrt64 : Real.sqrt 64 = 8 := sqrt_eval _ _ (by norm_num) (by norm_num)
lemma sqrt25 : Real.sqrt 25 = 5 := sqrt_eval _ _ (by norm_num) (by norm_num)
lemma sqrt350464 : Real.sqrt 350464 = 592 := sqrt_eval _ _ (by norm_num) (by norm_num)
lemma sqrt400 : Real.sqrt 400 = 20 := sqrt_eval _ _ (by norm_num) (by norm_num)

/-! Concrete geometry of the witness container `contW`. -/

lemma contW_center : contW.center = ⟨0, 0⟩ := rfl

lemma contW_corner0 : contW.getWorldCorners 0 = ⟨300, -300⟩ := by
  ext <;> norm_num [Container.getWorldCorners, Container.localCorner, contW]

lemma contW_corner1 : contW.getWorldCorners 1 = ⟨300, 300⟩ := by
  ext <;> norm_num [Container.getWorldCorners, Container.localCorner, contW]

lemma contW_corner2 : contW.getWorldCorners 2 = ⟨-300, 300⟩ := by
  ext <;> norm_num [Container.getWorldCorners, Container.localCorner, contW]

lemma contW_corner3 : contW.getWorldCorners 3 = ⟨-300, -300⟩ := by
  ext <;> norm_num [Container.getWorldCorners, Container.localCorner, contW]

lemma contW_edge0 : contW.getWorldEdges 0 = ⟨⟨300, -300⟩, ⟨300, 300⟩, 0, true⟩ := by
  rw [Container.getWorldEdges, show (0 + 1 : Fin 4) = 1 from rfl, contW_corner0, contW_corner1]
  rfl

lemma contW_edge1 : contW.getWorldEdges 1 = ⟨⟨300, 300⟩, ⟨-300, 300⟩, 1, false⟩ := by
  rw [Container.getWorldEdges, show (1 + 1 : Fin 4) = 2 from rfl, contW_corner1, contW_corner2]
  rfl

lemma contW_edge2 : contW.getWorldEdges 2 = ⟨⟨-300, 300⟩, ⟨-300, -300⟩, 2, false⟩ := by
  rw [Container.getWorldEdges, show (2 + 1 : Fin 4) = 3 from rfl, contW_corner2, contW_corner3]
  rfl

lemma contW_edge3 : contW.getWorldEdges 3 = ⟨⟨-300, -300⟩, ⟨300, -300⟩, 3, false⟩ := by
  rw [Container.getWorldEdges, show (3 + 1 : Fin 4) = 0 from rfl, contW_corner3, contW_corner0]
  rfl

lemma contW_gb : contW.getGapBoundaries = (⟨300, -75⟩, ⟨300, 75⟩) := by
  unfold Container.getGapBoundaries
  rw [show contW.gapSide = 0 from rfl, contW_edge0]
  have h1 : Vector2D.sub (⟨300, 300⟩ : Vector2D) ⟨300, -300⟩ = ⟨0, 600⟩ := by
    ext <;> norm_num [Vector2D.sub]
  norm_num [h1, Vector2D.magnitude, Vector2D.magnitudeSquared, sqrt360000, contW,
    Vector2D.normalized, Vector2D.divScalar, Vector2D.scale, Vector2D.add, Prod.ext_iff,
    Vector2D.ext_iff]

/-! Per-edge contact evaluations at the claim C1 ball. -/

lemma c1e0 : CollisionDetector.edgeContact ballC1 contW contW.getGapBoundaries.1
    contW.getGapBoundaries.2 (contW.getWorldEdges 0) = none := by
  norm_num [CollisionDetector.edgeContact, CollisionDetector.closestPointOnEdge,
    CollisionDetector.distToEdge, CollisionDetector.outwardPerp,
    CollisionDetector.ballIsInsideEdge, CollisionDetector.closestPointInGap,
    contW_gb, contW_edge0, ballC1, contW_center,
    Vector2D.sub, Vector2D.add, Vector2D.scale, Vector2D.divScalar, Vector2D.dot,
    Vector2D.magnitude, Vector2D.magnitudeSquared, Vector2D.distance, MathUtils.clamp,
    sqrt360000, sqrt354025, sqrt134689, sqrt47089]

lemma c1e1 : CollisionDetector.edgeContact ballC1 contW contW.getGapBoundaries.1
    contW.getGapBoundaries.2 (contW.getWorldEdges 1) = some (⟨0, 1⟩, 2) := by
  norm_num [CollisionDetector.edgeContact, CollisionDetector.closestPointOnEdge,
    CollisionDetector.distToEdge, CollisionDetector.outwardPerp,
    CollisionDetector.ballIsInsideEdge, CollisionDetector.closestPointInGap,
    contW_gb, contW_edge1, ballC1, contW_center,
    Vector2D.sub, Vector2D.add, Vector2D.scale, Vector2D.divScalar, Vector2D.dot,
    Vector2D.magnitude, Vector2D.magnitudeSquared, Vector2D.distance, MathUtils.clamp,
    sqrt360000, sqrt64, Prod.ext_iff, Vector2D.ext_iff]

lemma c1e2 : CollisionDetector.edgeContact ballC1 contW contW.getGapBoundaries.1
    contW.getGapBoundaries.2 (contW.getWorldEdges 2) = some (⟨-1, 0⟩, 5) := by
  norm_num [CollisionDetector.edgeContact, CollisionDetector.closestPointOnEdge,
    CollisionDetector.distToEdge, CollisionDetector.outwardPerp,
    CollisionDetector.ballIsInsideEdge, CollisionDetector.closestPointInGap,
    contW_gb, contW_edge2, ballC1, contW_center,
    Vector2D.sub, Vector2D.add, Vector2D.scale, Vector2D.divScalar, Vector2D.dot,
    Vector2D.magnitude, Vector2D.magnitudeSquared, Vector2D.distance, MathUtils.clamp,
    sqrt360000, sqrt25, Prod.ext_iff, Vector2D.ext_iff]

lemma c1e3 : CollisionDetector.edgeContact ballC1 contW contW.getGapBoundaries.1
    contW.getGapBoundaries.2 (contW.getWorldEdges 3) = none := by
  norm_num [CollisionDetector.edgeContact, CollisionDetector.closestPointOnEdge,
    CollisionDetector.distToEdge, CollisionDetector.outwardPerp,
    CollisionDetector.ballIsInsideEdge, CollisionDetector.closestPointInGap,
    contW_gb, contW_edge3, ballC1, contW_center,
    Vector2D.sub, Vector2D.add, Vector2D.scale, Vector2D.divScalar, Vector2D.dot,
    Vector2D.magnitude, Vector2D.magnitudeSquared, Vector2D.distance, MathUtils.clamp,
    sqrt360000, sqrt350464]

/-! Evaluations at the claim C2 ball. -/

lemma c2dist : CollisionDetector.distToEdge ballC2 (contW.getWorldEdges 1) = 20 := by
  norm_num [CollisionDetector.distToEdge, CollisionDetector.closestPointOnEdge,
    contW_edge1, ballC2,
    Vector2D.sub, Vector2D.add, Vector2D.scale, Vector2D.divScalar, Vector2D.dot,
    Vector2D.magnitude, Vector2D.magnitudeSquared, MathUtils.clamp, sqrt360000, sqrt400]

lemma c2outside : ¬ CollisionDetector.ballIsInsideEdge ballC2 contW (contW.getWorldEdges 1) := by
  norm_num [CollisionDetector.ballIsInsideEdge, CollisionDetector.closestPointOnEdge,
    CollisionDetector.distToEdge, CollisionDetector.outwardPerp,
    contW_edge1, ballC2, contW_center,
    Vector2D.sub, Vector2D.add, Vector2D.scale, Vector2D.divScalar, Vector2D.dot,
    Vector2D.magnitude, Vector2D.magnitudeSquared, MathUtils.clamp, sqrt360000, sqrt400]

/-! Evaluations at the claim C3 ball. -/

lemma cp3 : CollisionDetector.closestPointOnEdge ballC3 (contW.getWorldEdges 0) = ⟨300, 0⟩ := by
  unfold CollisionDetector.closestPointOnEdge
  rw [contW_edge0]
  norm_num [ballC3, Vector2D.sub, Vector2D.magnitude, Vector2D.magnitudeSquared, sqrt360000,
    Vector2D.divScalar, Vector2D.dot, MathUtils.clamp, Vector2D.scale, Vector2D.add,
    Vector2D.ext_iff]

lemma gapcond3 : CollisionDetector.closestPointInGap ballC3 contW.getGapBoundaries.1
    contW.getGapBoundaries.2 (contW.getWorldEdges 0) := by
  unfold CollisionDetector.closestPointInGap
  rw [contW_gb, cp3]
  norm_num [Vector2D.distance, Vector2D.sub, Vector2D.magnitude, Vector2D.magnitudeSquared,
    sqrt5625, sqrt22500]

/-- Midpoint symmetry and length of the centered gap, for an arbitrary
segment from `s` to `q` and a nonnegative gap fraction `f`: the two gap
endpoints produced by the `getGapBoundaries` formula are symmetric about the
segment midpoint and lie `f` times the segment length apart. -/
lemma gapBoundaries_core (s q : Vector2D) (f : ℝ) (hf : 0 ≤ f) :
    Vector2D.sub ((Vector2D.add s q).scale 0.5)
        (Vector2D.add s ((Vector2D.sub q s).normalized.scale
          (((Vector2D.sub q s).magnitude - (Vector2D.sub q s).magnitude * f) / 2)))
      = Vector2D.sub
          (Vector2D.add s ((Vector2D.sub q s).normalized.scale
            (((Vector2D.sub q s).magnitude - (Vector2D.sub q s).magnitude * f) / 2
              + (Vector2D.sub q s).magnitude * f)))
          ((Vector2D.add s q).scale 0.5) ∧
    (Vector2D.add s ((Vector2D.sub q s).normalized.scale
        (((Vector2D.sub q s).magnitude - (Vector2D.sub q s).magnitude * f) / 2))).distance
      (Vector2D.add s ((Vector2D.sub q s).normalized.scale
        (((Vector2D.sub q s).magnitude - (Vector2D.sub q s).magnitude * f) / 2
          + (Vector2D.sub q s).magnitude * f)))
      = f * (Vector2D.sub q s).magnitude := by
  have hvx : (Vector2D.sub q s).x = q.x - s.x := rfl
  have hvy : (Vector2D.sub q s).y = q.y - s.y := rfl
  have hLnn : 0 ≤ (Vector2D.sub q s).magnitude := Vector2D.magnitude_nonneg _
  rcases eq_or_ne (Vector2D.sub q s).magnitude 0 with h0 | h0
  · have hz : Vector2D.sub q s = ⟨0, 0⟩ := (Vector2D.magnitude_eq_zero_iff _).mp h0
    have hqx : q.x = s.x := by
      have hx := congrArg Vector2D.x hz
      simp [Vector2D.sub] at hx
      linarith
    have hqy : q.y = s.y := by
      have hy := congrArg Vector2D.y hz
      simp [Vector2D.sub] at hy
      linarith
    have hnorm0 : Vector2D.normalized ⟨0, 0⟩ = ⟨0, 0⟩ := by
      ext <;> simp [Vector2D.normalized, Vector2D.divScalar]
    have hscale0 : ∀ t : ℝ, Vector2D.scale ⟨0, 0⟩ t = ⟨0, 0⟩ := by
      intro t; ext <;> simp [Vector2D.scale]
    have hdist0 : ∀ p : Vector2D, p.distance p = 0 := by
      intro p
      unfold Vector2D.distance
      rw [show Vector2D.sub p p = (⟨0, 0⟩ : Vector2D) by ext <;> simp [Vector2D.sub]]
      exact Vector2D.magnitude_eval 0 0 0 le_rfl (by norm_num)
    have hmag0 : Vector2D.magnitude ⟨0, 0⟩ = 0 :=
      Vector2D.magnitude_eval 0 0 0 le_rfl (by norm_num)
    constructor
    · rw [hz, hnorm0, hscale0, hscale0]
      ext <;> simp [Vector2D.sub, Vector2D.add, Vector2D.scale, hqx, hqy] <;> ring
    · rw [hz, hnorm0, hscale0, hscale0, hdist0, hmag0]
      ring
  · have hL : 0 < (Vector2D.sub q s).magnitude := lt_of_le_of_ne hLnn (Ne.symm h0)
    constructor
    · ext <;>
        simp only [Vector2D.sub_x, Vector2D.sub_y, Vector2D.add_x, Vector2D.add_y,
          Vector2D.scale_x, Vector2D.scale_y, Vector2D.normalized,
          Vector2D.divScalar_x, Vector2D.divScalar_y, hvx, hvy] <;>
        field_simp <;> ring
    · unfold Vector2D.distance
      rw [show Vector2D.sub
          (Vector2D.add s ((Vector2D.sub q s).normalized.scale
            (((Vector2D.sub q s).magnitude - (Vector2D.sub q s).magnitude * f) / 2
              + (Vector2D.sub q s).magnitude * f)))
          (Vector2D.add s ((Vector2D.sub q s).normalized.scale
            (((Vector2D.sub q s).magnitude - (Vector2D.sub q s).magnitude * f) / 2)))
          = (Vector2D.sub q s).normalized.scale ((Vector2D.sub q s).magnitude * f) by
        ext <;>
          simp only [Vector2D.sub_x, Vector2D.sub_y, Vector2D.add_x, Vector2D.add_y,
            Vector2D.scale_x, Vector2D.scale_y, Vector2D.normalized,
            Vector2D.divScalar_x, Vector2D.divScalar_y] <;> ring]
      rw [Vector2D.magnitude_scale, Vector2D.normalized, Vector2D.magnitude_divScalar,
        abs_of_nonneg hLnn, div_self h0,
        abs_of_nonneg (mul_nonneg hLnn hf)]
      ring

lemma removeLoop_eq (isOff : Ball → Prop) (l : List Ball) :
    BallManager.removeLoop isOff l
      = (l.filter (fun b => decide (¬ isOff b)),
         (l.filter (fun b => decide (isOff b))).length) := by
  induction l with
  | nil => rfl
  | cons b rest ih =>
      unfold BallManager.removeLoop
      rw [ih]
      by_cases hb : isOff b
      · simp [hb]
      · simp [hb]

/-! The claim theorems. -/

/-- Claim C1 (code bug, evaluated at the failing input): for the radius-10
ball at (-295, 292), overlapping the top edge of `contW` with penetration 2
and the left edge with penetration 5, the baseline `checkContainerCollision`
returns the top-edge contact of penetration 2 even though a valid left-edge
contact with the deeper penetration 5 exists: the loop keeps the shallowest
penetration, contradicting both the spec and its own comment about storing
the deepest collision. -/
theorem claimC1 :
    CollisionDetector.checkContainerCollision ballC1 contW
      = ⟨true, ⟨0, 1⟩, 2⟩ ∧
    CollisionDetector.edgeContact ballC1 contW contW.getGapBoundaries.1
        contW.getGapBoundaries.2 (contW.getWorldEdges 2) = some (⟨-1, 0⟩, 5) ∧
    (2 : ℝ) < 5 := by
  refine ⟨?_, c1e2, by norm_num⟩
  unfold CollisionDetector.checkContainerCollision
  simp only [Container.edgesList, List.foldl]
  rw [show CollisionDetector.containerStep ballC1 contW contW.getGapBoundaries.1
      contW.getGapBoundaries.2 (CollisionInfo.default, fltMax) (contW.getWorldEdges 0)
      = (CollisionInfo.default, fltMax) by
    unfold CollisionDetector.containerStep; rw [c1e0]]
  rw [show CollisionDetector.containerStep ballC1 contW contW.getGapBoundaries.1
      contW.getGapBoundaries.2 (CollisionInfo.default, fltMax) (contW.getWorldEdges 1)
      = (⟨true, ⟨0, 1⟩, 2⟩, 2) by
    unfold CollisionDetector.containerStep
    rw [c1e1]
    norm_num [fltMax, CollisionInfo.default]]
  rw [show CollisionDetector.containerStep ballC1 contW contW.getGapBoundaries.1
      contW.getGapBoundaries.2 (⟨⟨true, ⟨0, 1⟩, 2⟩, 2⟩ : CollisionInfo × ℝ)
        (contW.getWorldEdges 2) = (⟨true, ⟨0, 1⟩, 2⟩, 2) by
    unfold CollisionDetector.containerStep
    rw [c1e2]
    norm_num]
  rw [show CollisionDetector.containerStep ballC1 contW contW.getGapBoundaries.1
      contW.getGapBoundaries.2 (⟨⟨true, ⟨0, 1⟩, 2⟩, 2⟩ : CollisionInfo × ℝ)
        (contW.getWorldEdges 3) = (⟨true, ⟨0, 1⟩, 2⟩, 2) by
    unfold CollisionDetector.containerStep; rw [c1e3]]

/-- Claim C2 counterexample: in the baseline revision, a ball of radius 10
whose center is on the exterior side of the top edge at distance 20 (at
least the radius) still receives a contact from that edge, with penetration
30 = radius + distance; the baseline therefore does not implement the
grazing re-entry policy the claim states. -/
theorem claimC2_counterexample :
    ¬ CollisionDetector.ballIsInsideEdge ballC2 contW (contW.getWorldEdges 1) ∧
    CollisionDetector.distToEdge ballC2 (contW.getWorldEdges 1) = 20 ∧
    ballC2.radius ≤ CollisionDetector.distToEdge ballC2 (contW.getWorldEdges 1) ∧
    CollisionDetector.edgeContact ballC2 contW contW.getGapBoundaries.1
        contW.getGapBoundaries.2 (contW.getWorldEdges 1) = some (⟨0, 1⟩, 30) := by
  refine ⟨c2outside, c2dist, by rw [c2dist]; norm_num [ballC2], ?_⟩
  norm_num [CollisionDetector.edgeContact, CollisionDetector.closestPointOnEdge,
    CollisionDetector.distToEdge, CollisionDetector.outwardPerp,
    CollisionDetector.ballIsInsideEdge, CollisionDetector.closestPointInGap,
    contW_gb, contW_edge1, ballC2, contW_center,
    Vector2D.sub, Vector2D.add, Vector2D.scale, Vector2D.divScalar, Vector2D.dot,
    Vector2D.magnitude, Vector2D.magnitudeSquared, Vector2D.distance, MathUtils.clamp,
    sqrt360000, sqrt400, Prod.ext_iff, Vector2D.ext_iff]

/-- Claim C2 (amended): in revision part_002, an edge whose distance to the
ball center is at least the radius contributes no contact, in particular for
a center on the exterior side of the edge (grazing re-entry only); the
baseline revision instead always pulls an exterior center back, as the
counterexample shows. -/
theorem claimC2 (ball : Ball) (cont : Container) (gapStart gapEnd : Vector2D) (e : Edge)
    (hout : ¬ CollisionDetector.ballIsInsideEdge ball cont e)
    (hfar : ball.radius ≤ CollisionDetector.distToEdge ball e) :
    CollisionDetectorP2.edgeContact ball cont gapStart gapEnd e = none := by
  unfold CollisionDetectorP2.edgeContact
  rcases lt_or_ge (Vector2D.sub e.endPt e.start).magnitude 0.0001 with h1 | h1
  · rw [if_pos h1]
  · rw [if_neg (not_lt.mpr h1)]
    by_cases h2 : e.hasGap = true ∧
        CollisionDetector.closestPointInGap ball gapStart gapEnd e
    · rw [if_pos h2]
    · rw [if_neg h2]
      show (if CollisionDetector.distToEdge ball e < ball.radius then _ else none) = none
      rw [if_neg (not_lt.mpr hfar)]

/-- Witness instantiating `claimC2` at the exterior ball and the top edge of
the witness container. -/
theorem claimC2_witness :
    ¬ CollisionDetector.ballIsInsideEdge ballC2 contW (contW.getWorldEdges 1) ∧
    ballC2.radius ≤ CollisionDetector.distToEdge ballC2 (contW.getWorldEdges 1) ∧
    CollisionDetectorP2.edgeContact ballC2 contW contW.getGapBoundaries.1
        contW.getGapBoundaries.2 (contW.getWorldEdges 1) = none := by
  have hfar : ballC2.radius ≤ CollisionDetector.distToEdge ballC2 (contW.getWorldEdges 1) := by
    rw [c2dist]; norm_num [ballC2]
  exact ⟨c2outside, hfar,
    claimC2 ballC2 contW contW.getGapBoundaries.1 contW.getGapBoundaries.2
      (contW.getWorldEdges 1) c2outside hfar⟩

/-- Claim C3: whenever the closest point of the gap-bearing edge to the ball
center lies within the gap span (distance sum at most the gap length plus
the 0.5 tolerance), the baseline detector derives no contact from that edge,
regardless of proximity and for every container state and rotation: the
per-edge contact is `none` and the whole detector result equals the fold
over the three remaining edges. -/
theorem claimC3 (ball : Ball) (cont : Container)
    (h : CollisionDetector.closestPointInGap ball cont.getGapBoundaries.1
          cont.getGapBoundaries.2 (cont.getWorldEdges cont.gapSide)) :
    CollisionDetector.edgeContact ball cont cont.getGapBoundaries.1
        cont.getGapBoundaries.2 (cont.getWorldEdges cont.gapSide) = none ∧
    CollisionDetector.checkContainerCollision ball cont
      = (((cont.edgesList).eraseIdx (cont.gapSide : ℕ)).foldl
          (CollisionDetector.containerStep ball cont cont.getGapBoundaries.1
            cont.getGapBoundaries.2) (CollisionInfo.default, fltMax)).1 := by
  have hgap : (cont.getWorldEdges cont.gapSide).hasGap = true := by
    simp [Container.getWorldEdges]
  have hnone : CollisionDetector.edgeContact ball cont cont.getGapBoundaries.1
      cont.getGapBoundaries.2 (cont.getWorldEdges cont.gapSide) = none := by
    unfold CollisionDetector.edgeContact
    rcases lt_or_ge (Vector2D.sub (cont.getWorldEdges cont.gapSide).endPt
        (cont.getWorldEdges cont.gapSide).start).magnitude 0.0001 with hd | hd
    · rw [if_pos hd]
    · rw [if_neg (not_lt.mpr hd), if_pos ⟨hgap, h⟩]
  refine ⟨hnone, ?_⟩
  have hstep : ∀ acc, CollisionDetector.containerStep ball cont cont.getGapBoundaries.1
      cont.getGapBoundaries.2 acc (cont.getWorldEdges cont.gapSide) = acc := by
    intro acc
    unfold CollisionDetector.containerStep
    rw [hnone]
  have hfin : cont.gapSide = 0 ∨ cont.gapSide = 1 ∨ cont.gapSide = 2 ∨ cont.gapSide = 3 := by
    rcases cont.gapSide with ⟨v, hv⟩
    interval_cases v
    · exact Or.inl rfl
    · exact Or.inr (Or.inl rfl)
    · exact Or.inr (Or.inr (Or.inl rfl))
    · exact Or.inr (Or.inr (Or.inr rfl))
  unfold CollisionDetector.checkContainerCollision
  rcases hfin with hg | hg | hg | hg <;> rw [hg] at hstep ⊢ <;>
    simp only [Container.edgesList, List.foldl] <;> rw [hstep]

/-- Witness instantiating `claimC3` at a ball touching the middle of the gap
edge of the witness container. -/
theorem claimC3_witness :
    CollisionDetector.closestPointInGap ballC3 contW.getGapBoundaries.1
        contW.getGapBoundaries.2 (contW.getWorldEdges contW.gapSide) ∧
    (CollisionDetector.edgeContact ballC3 contW contW.getGapBoundaries.1
        contW.getGapBoundaries.2 (contW.getWorldEdges contW.gapSide) = none ∧
     CollisionDetector.checkContainerCollision ballC3 contW
      = (((contW.edgesList).eraseIdx (contW.gapSide : ℕ)).foldl
          (CollisionDetector.containerStep ballC3 contW contW.getGapBoundaries.1
            contW.getGapBoundaries.2) (CollisionInfo.default, fltMax)).1) := by
  have h : CollisionDetector.closestPointInGap ballC3 contW.getGapBoundaries.1
      contW.getGapBoundaries.2 (contW.getWorldEdges contW.gapSide) := by
    rw [show contW.gapSide = 0 from rfl]
    exact gapcond3
  exact ⟨h, claimC3 ballC3 contW h⟩

/-- Claim C4: `checkBallCollision` reports a collision iff the squared center
distance is strictly below the squared radius sum and strictly above the
near-zero coincidence threshold 0.0001; on collision the penetration is the
radius sum minus the center distance and the normal is the unit vector
pointing from the center of ball A toward the center of ball B. -/
theorem claimC4 (a b : Ball) :
    ((CollisionDetector.checkBallCollision a b).hasCollision = true ↔
      (a.position.distance b.position) ^ 2 < (a.radius + b.radius) ^ 2 ∧
        0.0001 < (a.position.distance b.position) ^ 2) ∧
    ((CollisionDetector.checkBallCollision a b).hasCollision = true →
      (CollisionDetector.checkBallCollision a b).penetration
          = (a.radius + b.radius) - a.position.distance b.position ∧
      (CollisionDetector.checkBallCollision a b).normal.magnitude = 1 ∧
      (CollisionDetector.checkBallCollision a b).normal
          = (Vector2D.sub b.position a.position).divScalar
              (a.position.distance b.position)) := by
  have hsq : (a.position.distance b.position) ^ 2
      = (Vector2D.sub b.position a.position).magnitudeSquared := by
    rw [show a.position.distance b.position
        = (Vector2D.sub b.position a.position).magnitude from rfl, Vector2D.sq_magnitude]
  have hcr : (a.radius + b.radius) * (a.radius + b.radius)
      = (a.radius + b.radius) ^ 2 := by ring
  simp only [CollisionDetector.checkBallCollision]
  split_ifs with hcond
  · obtain ⟨h1, h2⟩ := hcond
    have hpos : 0 < Real.sqrt (Vector2D.sub b.position a.position).magnitudeSquared :=
      Real.sqrt_pos.mpr (by linarith)
    refine ⟨⟨fun _ => ⟨by rw [hsq, ← hcr]; exact h1, by rw [hsq]; exact h2⟩,
      fun _ => rfl⟩, fun _ => ⟨rfl, ?_, rfl⟩⟩
    rw [Vector2D.magnitude_divScalar,
      show (Vector2D.sub b.position a.position).magnitude
        = Real.sqrt (Vector2D.sub b.position a.position).magnitudeSquared from rfl,
      abs_of_pos hpos]
    exact div_self (ne_of_gt hpos)
  · constructor
    · simp only [CollisionInfo.default]
      constructor
      · intro h
        exact absurd h (by simp)
      · intro hc
        exfalso
        rw [hsq] at hc
        have h1' : (Vector2D.sub b.position a.position).magnitudeSquared
            < (a.radius + b.radius) * (a.radius + b.radius) := by
          rw [hcr]; exact hc.1
        exact absurd ⟨h1', hc.2⟩ hcond
    · intro h
      exact absurd h (by simp [CollisionInfo.default])

/-- Witness instantiating `claimC4` on two concrete overlapping balls. -/
theorem claimC4_witness :
    (CollisionDetector.checkBallCollision ballA4 ballB4).hasCollision = true ∧
    (CollisionDetector.checkBallCollision ballA4 ballB4).penetration
        = (ballA4.radius + ballB4.radius) - ballA4.position.distance ballB4.position ∧
    (CollisionDetector.checkBallCollision ballA4 ballB4).normal.magnitude = 1 := by
  have hd : ballA4.position.distance ballB4.position = 12 := by
    rw [show ballA4.position.distance ballB4.position
        = (Vector2D.sub ballB4.position ballA4.position).magnitude from rfl,
      show Vector2D.sub ballB4.position ballA4.position = ⟨12, 0⟩ by
        ext <;> simp [ballA4, ballB4, Vector2D.sub]]
    exact Vector2D.magnitude_eval 12 0 12 (by norm_num) (by norm_num)
  have h := claimC4 ballA4 ballB4
  have hc : (ballA4.position.distance ballB4.position) ^ 2
      < (ballA4.radius + ballB4.radius) ^ 2 ∧
      0.0001 < (ballA4.position.distance ballB4.position) ^ 2 := by
    rw [hd]
    norm_num [ballA4, ballB4]
  have hcol := h.1.mpr hc
  exact ⟨hcol, (h.2 hcol).1, (h.2 hcol).2.1⟩

/-- Claim C5: one lifecycle update removes exactly the off-screen balls
(order kept), adds removals times the respawn count to the pending counter,
spawns at most one ball - exactly one, decrementing the counter, precisely
when the counter is positive and the spawn point is clear - and never lets
the counter go negative, given a nonnegative respawn count and starting
counter. -/
theorem claimC5 (k : ℝ) (newBall : Ball) (s : BallManagerState)
    (w h : ℝ) (rc : ℤ) (hrc : 0 ≤ rc) (hp : 0 ≤ s.pendingRespawnCount) :
    BallManagerUpdateSpec k newBall s w h rc := by
  have hkeep : ∀ b ∈ s.balls.filter (fun b => decide (¬ Ball.isOffScreen k w h b)),
      ¬ Ball.isOffScreen k w h b := by
    intro b hb
    exact of_decide_eq_true (List.mem_filter.mp hb).2
  have hlen0 : 0 ≤ ((s.balls.filter fun b =>
      decide (Ball.isOffScreen k w h b)).length : ℤ) * rc :=
    mul_nonneg (by positivity) hrc
  unfold BallManagerUpdateSpec BallManager.update
  rw [removeLoop_eq]
  simp only
  have hpend : (if 0 < (s.balls.filter fun b =>
        decide (Ball.isOffScreen k w h b)).length
      then s.pendingRespawnCount + ((s.balls.filter fun b =>
        decide (Ball.isOffScreen k w h b)).length : ℤ) * rc
      else s.pendingRespawnCount)
      = s.pendingRespawnCount + ((s.balls.filter fun b =>
        decide (Ball.isOffScreen k w h b)).length : ℤ) * rc := by
    split_ifs with hc
    · rfl
    · have hz : (s.balls.filter fun b =>
          decide (Ball.isOffScreen k w h b)).length = 0 := by omega
      rw [hz]
      norm_num
  rw [hpend]
  split_ifs with hs
  · refine ⟨fun _ => ⟨rfl, rfl⟩, fun hne => absurd hs hne, hkeep, ?_⟩
    have := hs.1
    simp only
    omega
  · refine ⟨fun hsp => absurd hsp hs, fun _ => ⟨rfl, rfl⟩, hkeep, ?_⟩
    simp only
    omega

/-- Witness instantiating `claimC5`: multiplier 2, an 800 x 600 screen,
respawn count 1, one off-screen ball. -/
theorem claimC5_witness :
    (0 : ℤ) ≤ 1 ∧ (0 : ℤ) ≤ mgrW.pendingRespawnCount ∧
    BallManagerUpdateSpec 2 ballNew mgrW 800 600 1 :=
  ⟨by norm_num, by norm_num [mgrW],
    claimC5 2 ballNew mgrW 800 600 1 (by norm_num) (by norm_num [mgrW])⟩

/-- Claim C6: after `Container::update` with nonnegative `deltaTime`, the
stored rotation angle is the previous angle plus the angular speed (the
rotation speed converted to radians) times `deltaTime`, wrapped into
`[0, 2*pi)`. -/
theorem claimC6 (c : Container) (dt : ℝ) (hdt : 0 ≤ dt) :
    (c.update dt).currentAngleRad
      = MathUtils.normalizeAngle
          (c.currentAngleRad + MathUtils.degToRad c.rotationSpeed * dt) ∧
    0 ≤ (c.update dt).currentAngleRad ∧
    (c.update dt).currentAngleRad < 2 * Real.pi := by
  have hupd : (c.update dt).currentAngleRad
      = MathUtils.normalizeAngle
          (c.currentAngleRad + MathUtils.degToRad (c.rotationSpeed * dt)) := rfl
  have harg : MathUtils.degToRad (c.rotationSpeed * dt)
      = MathUtils.degToRad c.rotationSpeed * dt := by
    unfold MathUtils.degToRad; ring
  rw [hupd, harg]
  exact ⟨rfl, (MathUtils.normalizeAngle_mem _).1, (MathUtils.normalizeAngle_mem _).2⟩

/-- Witness instantiating `claimC6` at the `GameState` container with a one
second tick. -/
theorem claimC6_witness :
    (0 : ℝ) ≤ 1 ∧
    ((contW.update 1).currentAngleRad
      = MathUtils.normalizeAngle
          (contW.currentAngleRad + MathUtils.degToRad contW.rotationSpeed * 1) ∧
     0 ≤ (contW.update 1).currentAngleRad ∧
     (contW.update 1).currentAngleRad < 2 * Real.pi) :=
  ⟨by norm_num, claimC6 contW 1 (by norm_num)⟩

/-- Claim C7: exactly one of the four edges carries the gap, and the gap
endpoints are symmetric about the midpoint of that edge, at a separation of
`gapSizeFraction` times the edge length. -/
theorem claimC7 (c : Container) (hf : 0 ≤ c.gapSizeFraction) :
    (∃! i : Fin 4, (c.getWorldEdges i).hasGap = true) ∧
    (Vector2D.sub
        ((Vector2D.add (c.getWorldEdges c.gapSide).start
          (c.getWorldEdges c.gapSide).endPt).scale 0.5) c.getGapBoundaries.1
      = Vector2D.sub c.getGapBoundaries.2
          ((Vector2D.add (c.getWorldEdges c.gapSide).start
            (c.getWorldEdges c.gapSide).endPt).scale 0.5)) ∧
    c.getGapBoundaries.1.distance c.getGapBoundaries.2
      = c.gapSizeFraction * (Vector2D.sub (c.getWorldEdges c.gapSide).endPt
          (c.getWorldEdges c.gapSide).start).magnitude := by
  have hcore := gapBoundaries_core (c.getWorldEdges c.gapSide).start
    (c.getWorldEdges c.gapSide).endPt c.gapSizeFraction hf
  exact ⟨⟨c.gapSide, by simp [Container.getWorldEdges],
    fun i hi => by simpa [Container.getWorldEdges] using hi⟩, hcore.1, hcore.2⟩

/-- Witness instantiating `claimC7` at the `GameState` container. -/
theorem claimC7_witness :
    (0 : ℝ) ≤ contW.gapSizeFraction ∧
    ((∃! i : Fin 4, (contW.getWorldEdges i).hasGap = true) ∧
     (Vector2D.sub
        ((Vector2D.add (contW.getWorldEdges contW.gapSide).start
          (contW.getWorldEdges contW.gapSide).endPt).scale 0.5) contW.getGapBoundaries.1
      = Vector2D.sub contW.getGapBoundaries.2
          ((Vector2D.add (contW.getWorldEdges contW.gapSide).start
            (contW.getWorldEdges contW.gapSide).endPt).scale 0.5)) ∧
     contW.getGapBoundaries.1.distance contW.getGapBoundaries.2
      = contW.gapSizeFraction * (Vector2D.sub (contW.getWorldEdges contW.gapSide).endPt
          (contW.getWorldEdges contW.gapSide).start).magnitude) :=
  ⟨by norm_num [contW], claimC7 contW (by norm_num [contW])⟩

/-- Claim C8: the geometry queries are pure functions of the five fields
(center, side length, rotation angle, gap fraction, gap side): two container
states agreeing on those (they may differ in rotation speed) yield identical
corners, edges and gap endpoints.  In this embedding the queries are
functions returning values, so they alter no container field by
construction. -/
theorem claimC8 (c c' : Container)
    (h1 : c.center = c'.center) (h2 : c.sideLength = c'.sideLength)
    (h3 : c.currentAngleRad = c'.currentAngleRad)
    (h4 : c.gapSizeFraction = c'.gapSizeFraction)
    (h5 : c.gapSide = c'.gapSide) :
    (∀ i : Fin 4, c.getWorldCorners i = c'.getWorldCorners i) ∧
    (∀ i : Fin 4, c.getWorldEdges i = c'.getWorldEdges i) ∧
    c.getGapBoundaries = c'.getGapBoundaries := by
  obtain ⟨cen, sl, gf, gs, rs, ang⟩ := c
  obtain ⟨cen', sl', gf', gs', rs', ang'⟩ := c'
  simp only at h1 h2 h3 h4 h5
  subst h1 h2 h3 h4 h5
  exact ⟨fun i => rfl, fun i => rfl, rfl⟩

/-- Witness instantiating `claimC8` on two containers that differ only in
rotation speed (36 vs 0 degrees per second). -/
theorem claimC8_witness :
    contW.center = contW0.center ∧ contW.sideLength = contW0.sideLength ∧
    contW.currentAngleRad = contW0.currentAngleRad ∧
    contW.gapSizeFraction = contW0.gapSizeFraction ∧
    contW.gapSide = contW0.gapSide ∧
    ((∀ i : Fin 4, contW.getWorldCorners i = contW0.getWorldCorners i) ∧
     (∀ i : Fin 4, contW.getWorldEdges i = contW0.getWorldEdges i) ∧
     contW.getGapBoundaries = contW0.getGapBoundaries) :=
  ⟨rfl, rfl, rfl, rfl, rfl, claimC8 contW contW0 rfl rfl rfl rfl rfl⟩

/-- Claim C9: one `GameState::update` tick is exactly the rotation phase,
then the physics phase, then the lifecycle phase, in that order, each
applied once - for every physics-step function, state and parameters. -/
theorem claimC9 (phys : List Ball → Container → ℝ → ℝ → List Ball)
    (k : ℝ) (newBall : Ball) (wW wH : ℝ) (s : GameStateS)
    (dt rest : ℝ) (rc : ℤ) :
    GameState.update phys k newBall wW wH s dt rest rc
      = GameState.lifecyclePhase k newBall wW wH rc
          (GameState.physicsPhase phys dt rest (GameState.rotationPhase dt s)) := rfl

/-- Claim C10: the ball-ball detector is the same computation in the baseline
revision, revision part_001 and revision part_002: all three return the same
contact for every pair of balls. -/
theorem claimC10 (a b : Ball) :
    CollisionDetectorP1.checkBallCollision a b
      = CollisionDetector.checkBallCollision a b ∧
    CollisionDetectorP2.checkBallCollision a b
      = CollisionDetector.checkBallCollision a b :=
  ⟨rfl, rfl⟩

end BallSim
